import Mathlib

/-!
# Verification of the twitch-webhooks subscription core

Shallow embedding of `src/webhooks.ts` (class `TwitchWebhookManager`, the
verification middleware `getVerificationMiddleware`, and the hub request
function `doHubRequest`), together with theorems settling the frozen claims
about the subscription lifecycle, the signature gate and the retry protocol.

External collaborators (the HTTP framework, `got`, node `crypto`, the
persistence manager interface) are modelled as explicit parameters or as
simple functional state:
* persisted webhooks are a list of records, looked up by `id`;
* the HMAC primitive `crypto.createHmac('sha256', secret).update(body)`
  is an arbitrary function parameter `hmac : String → String → String`
  (the middleware logic never inspects its output structure);
* asynchronous calls are modelled with `Except`: an awaited call propagates
  its `.error`, a call whose promise is dropped (fire-and-forget) has its
  `Except` result discarded.

Machine integers do not overflow in the modelled code paths (status codes,
lease seconds); they are modelled as `Nat`.
-/

namespace TwitchWebhooks

/-- The persisted subscription record (`WebhookPersistenceObject` lives in
`persistence.ts`, which is not part of the provided sources; its fields are
modelled from the spec data model §3: `id`, `topicType`, `href`, `secret`,
`leaseSeconds`, `subscribed`, `subscriptionStart`/`subscriptionEnd`
timestamps in milliseconds).  Timestamps are `Option Nat` (ms since epoch),
`none` until verification succeeds. -/
structure WebhookPersistenceObject where
  id : String
  type : Nat
  href : String
  secret : String
  leaseSeconds : Nat
  subscribed : Bool
  subscriptionStart : Option Nat := none
  subscriptionEnd : Option Nat := none
deriving DecidableEq, Repr

/-- The persistence store, modelled as the list of persisted records.
The in-memory manager keys records by `id`; lookups match on the record's
`id` field. -/
abbrev Store : Type := List WebhookPersistenceObject

/-- `persistenceManager.getWebhookById(id)`: the record whose `id` matches,
or absent. -/
def getWebhookById (s : Store) (i : String) : Option WebhookPersistenceObject :=
  List.find? (fun w => w.id = i) s

/-- `persistenceManager.persistWebhook(record)`: first-time insert. -/
def persistWebhook (s : Store) (w : WebhookPersistenceObject) : Store :=
  w :: s

/-- `persistenceManager.deleteWebhook(id)`: remove the record with that id. -/
def deleteWebhook (s : Store) (i : String) : Store :=
  List.filter (fun w => !(w.id = i : Bool)) s

/-- `persistenceManager.saveWebhook(record)`: update-in-place of the record
with the same id (used on the verified-confirmation path, where the record
is known to exist). -/
def saveWebhook (s : Store) (w : WebhookPersistenceObject) : Store :=
  List.map (fun x => if x.id = w.id then w else x) s

/-! ## Hub request protocol (`doHubRequest`, webhooks.ts lines 470–509) -/

/-- An HTTP response from the hub, as observed by `doHubRequest` through
`got.post` (`resp.statusCode`, `resp.body`). -/
structure HubResponse where
  statusCode : Nat
  body : String
deriving DecidableEq, Repr

/-- Modelled from the spec: `createErrorFromResponse` (errors.ts is not part
of the provided sources) constructs a typed error from the response
status/body.  -/
structure HubRequestError where
  statusCode : Nat
  body : String
deriving DecidableEq, Repr

/-- The success test `resp.statusCode && Math.floor(resp.statusCode / 100) === 2`:
a truthy (non-zero) status code in the 2xx range. -/
def is2xx (s : Nat) : Bool :=
  s != 0 && s / 100 == 2

/-- `doHubRequest(webhook, manager, hubParams, oAuthToken)` (lines 470–509),
modelled as a function of the responses the hub returns to the first and
(when reached) second HTTP request.  `refresh` is the external collaborator
`manager.config.refreshOAuthToken`.  The second component of the result is
the list of bearer tokens actually sent, one per HTTP request issued, in
order: its length is the number of hub HTTP requests this call makes. -/
def doHubRequest (resp1 resp2 : HubResponse) (oAuthToken : String)
    (refresh : String → String) : Except HubRequestError Unit × List String :=
  if is2xx resp1.statusCode then
    (Except.ok (), [oAuthToken])
  else if resp1.statusCode = 401 then
    let newToken := refresh oAuthToken
    if is2xx resp2.statusCode then
      (Except.ok (), [oAuthToken, newToken])
    else
      (Except.error ⟨resp2.statusCode, resp2.body⟩, [oAuthToken, newToken])
  else
    (Except.error ⟨resp1.statusCode, resp1.body⟩, [oAuthToken])

/-! ## Signature verification middleware (`getVerificationMiddleware`,
webhooks.ts lines 512–560) -/

/-- JavaScript `String.prototype.split` with a one-character separator:
`splitChar c l` cuts `l` at every occurrence of `c`.  It always returns at
least one (possibly empty) segment, exactly as JS `split` does. -/
def splitChar (c : Char) : List Char → List (List Char)
  | [] => [[]]
  | x :: xs =>
    if x = c then [] :: splitChar c xs
    else
      match splitChar c xs with
      | [] => [[x]]
      | h :: t => (x :: h) :: t

/-- The middleware's signature extraction
`(req.header("X-Hub-Signature")).split('=')[1]`: the segment between the
first and second `'='` of the header, or absent (JS `undefined`) when the
header has no `'='` at all. -/
def jsSplitGet1 (c : Char) (s : String) : Option String :=
  (List.get? (splitChar c s.data) 1).map (fun l => String.mk l)

/-- Cost model of a short-circuit left-to-right string comparison: the
number of character comparisons performed, scanning until the first
mismatch or the end.  This models the character scan performed by the
JavaScript `===` operator on two equal-length strings. -/
def scanCost : List Char → List Char → Nat
  | a :: as, b :: bs => 1 + (if a = b then scanCost as bs else 0)
  | _, _ => 0

/-- Comparison cost of `digest === sig` in the middleware: a length check
first (constant, counted as 0), then the short-circuit character scan when
the lengths agree. -/
def jsStrEqCost (a b : String) : Nat :=
  if a.length = b.length then scanCost a.data b.data else 0

/-- Length of the longest common prefix of two character lists; for two
distinct equal-length strings this is the index of the first mismatching
character. -/
def prefLen : List Char → List Char → Nat
  | a :: as, b :: bs => if a = b then 1 + prefLen as bs else 0
  | _, _ => 0

/-- What the verification middleware does with an inbound request: pass it
on to the lifecycle handlers (`next()`), or reject with
`res.sendStatus(400)` / `res.sendStatus(404)`. -/
inductive MiddlewareOutcome where
  | proceed
  | reject400
  | reject404
deriving DecidableEq, Repr

/-- An inbound HTTP request as seen by the middleware: method,
`X-Hub-Signature` header (absent when not sent), the last segment of the
callback URL path together with its query string (line 527–529 computes
`lastPath + callback_url.search` and uses it as the webhook id), and the
raw request body. -/
structure InboundRequest where
  method : String
  xHubSignature : Option String
  lastPathSegment : String
  search : String
  body : String
deriving DecidableEq, Repr

/-- `verificationMiddleware` (lines 513–559).  `hmac secret body` is the
external crypto primitive `crypto.createHmac('sha256', secret).update(body)
.digest('hex')`; the middleware never inspects its output beyond comparing
it.  Returns the outcome together with the comparison cost (per
`jsStrEqCost`) of the digest comparison when one is performed, `0`
otherwise.  A header with no `'='` yields an absent signature
(`undefined`), which compares unequal to the digest at constant cost. -/
def verificationMiddleware (hmac : String → String → String) (store : Store)
    (req : InboundRequest) : MiddlewareOutcome × Nat :=
  if req.method = "POST" then
    match req.xHubSignature with
    | some header =>
      match getWebhookById store (req.lastPathSegment ++ req.search) with
      | some webhook =>
        let digest := hmac webhook.secret req.body
        match jsSplitGet1 '=' header with
        | some sig =>
          if digest = sig then (MiddlewareOutcome.proceed, jsStrEqCost digest sig)
          else (MiddlewareOutcome.reject400, jsStrEqCost digest sig)
        | none => (MiddlewareOutcome.reject400, 0)
      | none => (MiddlewareOutcome.reject404, 0)
    | none => (MiddlewareOutcome.reject400, 0)
  else (MiddlewareOutcome.proceed, 0)

/-! ## Identity derivation and record creation -/

/-- Insertion step of the stable sort of topic parameters by key. -/
def insertParam (p : String × String) : List (String × String) → List (String × String)
  | [] => [p]
  | q :: qs => if p.1 ≤ q.1 then p :: q :: qs else q :: insertParam p qs

/-- Stable sort of topic parameters by key (spec §4.1: parameter insertion
order must not affect the derived id; sort by key before serializing). -/
def sortParams : List (String × String) → List (String × String)
  | [] => []
  | p :: ps => insertParam p (sortParams ps)

/-- The canonicalized query string built from the topic parameters. -/
def canonicalQuery (params : List (String × String)) : String :=
  "?" ++ String.intercalate "&" ((sortParams params).map (fun p => p.1 ++ "=" ++ p.2))

/-- Modelled from the spec: `getIdFromTypeAndParams` lives in `util.ts`,
which is not part of the provided sources.  Per spec §4.1/§6 the id is a
pure function of the topic type and the canonicalized parameter query
string (the id embeds the query string after a topic-type segment). -/
def getIdFromTypeAndParams (type : Nat) (search : String) : String :=
  toString type ++ search

/-- Modelled from the spec: `createWebhookPersistenceObject` lives in
`persistence.ts`, which is not part of the provided sources.  Per spec §3
it builds a fresh pending record whose `id` is derived deterministically
from `(type, params)`, whose `href` is the canonical topic URL built from
type and parameters, with the configured secret and requested lease, not
yet subscribed. -/
def createWebhookPersistenceObject (type : Nat) (params : List (String × String))
    (secret : String) (leaseSeconds : Nat) : WebhookPersistenceObject :=
  { id := getIdFromTypeAndParams type (canonicalQuery params)
  , type := type
  , href := "topic://" ++ toString type ++ canonicalQuery params
  , secret := secret
  , leaseSeconds := leaseSeconds
  , subscribed := false }

/-! ## Subscription lifecycle operations (webhooks.ts lines 272–337, 311–323) -/

deriving instance DecidableEq for Except

/-- Outcome of `subscribeOrGetSubscription`: the returned/thrown value, the
resulting store, the list of hub-request modes issued (`changeSub`
invocations), and the number of first-time persistence inserts. -/
structure SubscribeResult where
  result : Except HubRequestError String
  store : Store
  hubModes : List String
  inserts : Nat
deriving DecidableEq, Repr

/-- `subscribeOrGetSubscription` (lines 311–323): derive the record; if a
record with that id already exists, return its id without persisting or
contacting the hub; otherwise persist the pending record, then call
`changeSub(webhook, true)` (which performs `doHubRequest`); a hub failure
propagates (the awaited promise rejects) and the pending record stays. -/
def subscribeOrGetSubscription (store : Store) (type : Nat)
    (params : List (String × String)) (secret : String) (leaseSeconds : Nat)
    (resp1 resp2 : HubResponse) (token : String) (refresh : String → String) :
    SubscribeResult :=
  let webhook := createWebhookPersistenceObject type params secret leaseSeconds
  match getWebhookById store webhook.id with
  | some oldWebhook => ⟨Except.ok oldWebhook.id, store, [], 0⟩
  | none =>
    let store2 := persistWebhook store webhook
    match (doHubRequest resp1 resp2 token refresh).1 with
    | Except.ok _ => ⟨Except.ok webhook.id, store2, ["subscribe"], 1⟩
    | Except.error e => ⟨Except.error e, store2, ["subscribe"], 1⟩

/-- Errors thrown by the caller-facing lifecycle operations: the plain
`Error('Webhook with id ... could not be found!')` or a typed hub error. -/
inductive OpError where
  | notFound (id : String)
  | hub (e : HubRequestError)
deriving DecidableEq, Repr

/-- `unsubscribePersistenceObject` (lines 281–290): `changeSub(webhook,
false)` (awaited), then, only if it did not throw, deregister the webhook
from the renewal scheduler.  Returns the awaited result, the hub-request
modes issued, and the ids removed from the scheduler. -/
def unsubscribePersistenceObject (w : WebhookPersistenceObject)
    (resp1 resp2 : HubResponse) (token : String) (refresh : String → String)
    (hasScheduler : Bool) : Except HubRequestError Unit × List String × List String :=
  match (doHubRequest resp1 resp2 token refresh).1 with
  | Except.ok _ => (Except.ok (), ["unsubscribe"], if hasScheduler then [w.id] else [])
  | Except.error e => (Except.error e, ["unsubscribe"], [])

/-- `unsubscribe` (lines 272–279): look the record up; absent → throw the
not-found error; present → invoke `unsubscribePersistenceObject` WITHOUT
`await` (line 275), so its side effects happen but its rejection is
discarded and the operation itself resolves.  The record is not deleted
here.  Components: the caller-observed result, the store afterwards, hub
modes issued, scheduler removals. -/
def unsubscribe (store : Store) (webhookId : String) (resp1 resp2 : HubResponse)
    (token : String) (refresh : String → String) (hasScheduler : Bool) :
    Except OpError Unit × Store × List String × List String :=
  match getWebhookById store webhookId with
  | some webhook =>
    let dropped := unsubscribePersistenceObject webhook resp1 resp2 token refresh hasScheduler
    (Except.ok (), store, dropped.2.1, dropped.2.2)
  | none => (Except.error (OpError.notFound webhookId), store, [], [])

/-- `resubscribe` (lines 292–301): look the record up; absent → throw the
not-found error; present → `await changeSub(webhook, true)`, whose hub
error propagates to the caller.  Components: result, store, hub modes. -/
def resubscribe (store : Store) (webhookId : String) (resp1 resp2 : HubResponse)
    (token : String) (refresh : String → String) :
    Except OpError Unit × Store × List String :=
  match getWebhookById store webhookId with
  | some _ =>
    match (doHubRequest resp1 resp2 token refresh).1 with
    | Except.ok _ => (Except.ok (), store, ["subscribe"])
    | Except.error e => (Except.error (OpError.hub e), store, ["subscribe"])
  | none => (Except.error (OpError.notFound webhookId), store, [])

/-! ## Inbound GET verification callback (webhooks.ts lines 377–436) -/

/-- Events emitted on the manager during GET callback handling. -/
inductive ManagerEvent where
  | subscribedEvent (id : String)
  | unsubscribedEvent (id : String)
  | errorEvent (id : String) (reason : String)
deriving DecidableEq, Repr

/-- JS truthiness test of line 388:
`!searchParams.get("hub.mode") || get("hub.mode") === "denied"` — the mode
is absent, empty (falsy), or `denied`. -/
def modeAbsentOrDenied : Option String → Bool
  | none => true
  | some m => m = "" || m = "denied"

/-- Line 393: `get("hub.reason") ? reason : 'No reason given'` — JS
truthiness makes an absent or empty reason fall back to the default. -/
def denialReason : Option String → String
  | none => "No reason given"
  | some r => if r = "" then "No reason given" else r

/-- What the GET verification-callback handler produced: the store
afterwards, the HTTP status, the response body (`none` when the response
ends with no body), the events emitted in order, and the ids registered
with the renewal scheduler. -/
structure GetCallbackResult where
  store : Store
  status : Nat
  body : Option String
  events : List ManagerEvent
  schedulerAdds : List String
deriving DecidableEq, Repr

/-- The GET handler installed by `addWebhookEndpoints` (lines 377–436),
after the webhook id has been derived from the echoed `hub.topic` via
`getIdFromTypeAndParams`.  `now` is the clock reading (ms since epoch) of
this synchronous handler invocation (lines 408 and 413 both read the clock
within one synchronous block; they are modelled as the same instant).
`leaseSecondsParam` is `hub.lease_seconds` when present, truthy and
numeric; `challenge` and `reason` are `hub.challenge` / `hub.reason`. -/
def verifyGetHandler (store : Store) (now : Nat) (webhookId : String)
    (mode : Option String) (leaseSecondsParam : Option Nat)
    (challenge : Option String) (reason : Option String)
    (hasScheduler : Bool) : GetCallbackResult :=
  match getWebhookById store webhookId with
  | none => ⟨store, 404, none, [], []⟩
  | some webhook =>
    if modeAbsentOrDenied mode then
      ⟨deleteWebhook store webhookId, 200, none,
        [ManagerEvent.errorEvent webhook.id (denialReason reason)], []⟩
    else if mode = some "unsubscribe" then
      ⟨deleteWebhook store webhook.id, 200, challenge,
        [ManagerEvent.unsubscribedEvent webhook.id], []⟩
    else
      let webhook2 := { webhook with
        subscriptionStart := some now
        subscriptionEnd := some (match leaseSecondsParam with
          | some l => now + l * 1000
          | none => now + webhook.leaseSeconds * 1000)
        subscribed := true }
      ⟨saveWebhook store webhook2, 200, challenge,
        [ManagerEvent.subscribedEvent webhookId],
        if hasScheduler then [webhook2.id] else []⟩

/-! ## Bulk unsubscribe-all (`unsubFromAll`, webhooks.ts lines 155–179) -/

/-- The ids listed at the start of `unsubFromAll`
(`webhooks.map((x) => x.id)`). -/
def unsubFromAllIds (store : Store) : List String :=
  store.map (fun w => w.id)

/-- One firing of the `unsubscribed` listener installed by `unsubFromAll`
(lines 161–166): filter the fired id out of the remaining list and resolve
the final promise when the remaining list has just become empty.  The
state is (remaining ids, resolved flag). -/
def unsubResolveStep (st : List String × Bool) (e : String) : List String × Bool :=
  let remaining := List.filter (fun i => !(i = e : Bool)) st.1
  (remaining, st.2 || remaining.isEmpty)

/-- Whether the `finalPromise` of `unsubFromAll` has resolved after the
given sequence of `unsubscribed` events has fired: `resolve()` is only ever
called inside the event listener, so resolution requires at least one
event. -/
def unsubFromAllResolved (ids : List String) (events : List String) : Bool :=
  (List.foldl unsubResolveStep (ids, false) events).2

end TwitchWebhooks

namespace TwitchWebhooks

/-! ## Helper lemmas about the split and cost functions -/

theorem splitChar_ne_nil (c : Char) (l : List Char) : splitChar c l ≠ [] := by
  induction l with
  | nil => simp [splitChar]
  | cons x xs ih =>
    by_cases h : x = c
    · simp [splitChar, h]
    · simp only [splitChar, h, if_neg h]
      cases hs : splitChar c xs with
      | nil => simp
      | cons a t => simp

theorem splitChar_of_not_mem (c : Char) (l : List Char) (h : c ∉ l) :
    splitChar c l = [l] := by
  induction l with
  | nil => rfl
  | cons x xs ih =>
    have hx : ¬(x = c) := fun hc => h (hc ▸ List.mem_cons_self x xs)
    have hxs : c ∉ xs := fun hc => h (List.mem_cons_of_mem x hc)
    simp [splitChar, hx, ih hxs]

theorem splitChar_append (c : Char) (a b : List Char) (ha : c ∉ a) :
    splitChar c (a ++ c :: b) = a :: splitChar c b := by
  induction a with
  | nil => simp [splitChar]
  | cons x xs ih =>
    have hx : ¬(x = c) := fun hc => ha (hc ▸ List.mem_cons_self x xs)
    have hxs : c ∉ xs := fun hc => ha (List.mem_cons_of_mem x hc)
    simp [List.cons_append, splitChar, if_neg hx, List.append_eq, ih hxs]

theorem jsSplitGet1_concat (pre d : String) (hpre : '=' ∉ pre.data)
    (hd : '=' ∉ d.data) : jsSplitGet1 '=' (pre ++ "=" ++ d) = some d := by
  have hdata : (pre ++ "=" ++ d).data = pre.data ++ '=' :: d.data := by
    simp [String.data_append]
  rw [jsSplitGet1, hdata, splitChar_append '=' pre.data d.data hpre,
    splitChar_of_not_mem '=' d.data hd]
  cases d
  rfl

theorem scanCost_of_ne (a b : List Char) (hlen : a.length = b.length)
    (hne : a ≠ b) : scanCost a b = prefLen a b + 1 := by
  induction a generalizing b with
  | nil =>
    cases b with
    | nil => exact absurd rfl hne
    | cons y bs => simp at hlen
  | cons x as ih =>
    cases b with
    | nil => simp at hlen
    | cons y bs =>
      by_cases hxy : x = y
      · subst hxy
        have hne2 : as ≠ bs := fun h => hne (h ▸ rfl)
        have hlen2 : as.length = bs.length := by simpa using hlen
        simp [scanCost, prefLen, ih bs hlen2 hne2, Nat.add_comm]
      · simp [scanCost, prefLen, hxy]

theorem jsStrEqCost_of_ne (a b : String) (hlen : a.length = b.length)
    (hne : a ≠ b) : jsStrEqCost a b = prefLen a.data b.data + 1 := by
  have hdata : a.data ≠ b.data := fun h => hne (by cases a; cases b; exact congrArg String.mk h)
  have hlen2 : a.data.length = b.data.length := hlen
  simp [jsStrEqCost, hlen, scanCost_of_ne a.data b.data hlen2 hdata]

/-! ## Helper lemmas about the store operations -/

theorem getWebhookById_persist_self (s : Store) (w : WebhookPersistenceObject) :
    getWebhookById (persistWebhook s w) w.id = some w := by
  simp [getWebhookById, persistWebhook, List.find?]

theorem getWebhookById_some_id {s : Store} {i : String} {w : WebhookPersistenceObject}
    (h : getWebhookById s i = some w) : w.id = i := by
  rw [getWebhookById] at h
  have h2 := List.find?_some h
  simpa using h2

theorem getWebhookById_delete_self (s : Store) (i : String) :
    getWebhookById (deleteWebhook s i) i = none := by
  rw [getWebhookById, List.find?_eq_none]
  intro x hx
  have hmem := List.mem_filter.mp hx
  simpa using hmem.2

theorem getWebhookById_save_of_mem (s : Store) (i : String)
    (w w2 : WebhookPersistenceObject) (h : getWebhookById s i = some w)
    (hid : w2.id = i) : getWebhookById (saveWebhook s w2) i = some w2 := by
  induction s with
  | nil => simp [getWebhookById] at h
  | cons x xs ih =>
    by_cases hx : x.id = i
    · have hxw : x.id = w2.id := by rw [hx, hid]
      simp [saveWebhook, getWebhookById, List.find?, hxw, hid]
    · have hxw : ¬(x.id = w2.id) := fun hc => hx (by rw [hc, hid])
      have h2 : getWebhookById xs i = some w := by
        simpa [getWebhookById, List.find?, hx] using h
      have ih2 := ih h2
      simpa [saveWebhook, getWebhookById, List.find?, hxw, hx] using ih2

/-- C2: For every outbound hub request: a 2xx response succeeds with no
retry; a 401 response triggers exactly one retried request carrying the
token obtained from `refreshOAuthToken`, after which a 2xx succeeds and any
non-2xx fails with a typed error built from the retry response; any other
non-2xx status on the first attempt fails immediately with a typed error
and without retry; and no input ever causes more than two hub requests from
one call. -/
theorem doHubRequest_retry_policy (resp1 resp2 : HubResponse)
    (oAuthToken : String) (refresh : String → String) :
    (is2xx resp1.statusCode = true →
      doHubRequest resp1 resp2 oAuthToken refresh = (Except.ok (), [oAuthToken])) ∧
    (resp1.statusCode = 401 →
      (doHubRequest resp1 resp2 oAuthToken refresh).2 = [oAuthToken, refresh oAuthToken] ∧
      ((doHubRequest resp1 resp2 oAuthToken refresh).1 = Except.ok () ↔
        is2xx resp2.statusCode = true) ∧
      (is2xx resp2.statusCode = false →
        (doHubRequest resp1 resp2 oAuthToken refresh).1 =
          Except.error ⟨resp2.statusCode, resp2.body⟩)) ∧
    (is2xx resp1.statusCode = false → resp1.statusCode ≠ 401 →
      doHubRequest resp1 resp2 oAuthToken refresh =
        (Except.error ⟨resp1.statusCode, resp1.body⟩, [oAuthToken])) ∧
    (doHubRequest resp1 resp2 oAuthToken refresh).2.length ≤ 2 := by
  refine ⟨fun h1 => ?_, fun h401 => ?_, fun h1 hne => ?_, ?_⟩
  · simp [doHubRequest, h1]
  · have hnot : is2xx (401 : Nat) = false := by decide
    refine ⟨?_, ?_, ?_⟩
    · simp [doHubRequest, h401, hnot]
      by_cases h2 : is2xx resp2.statusCode = true <;> simp [h2]
    · simp [doHubRequest, h401, hnot]
      by_cases h2 : is2xx resp2.statusCode = true <;> simp [h2]
    · intro h2
      simp [doHubRequest, h401, hnot, h2]
  · simp [doHubRequest, h1, hne]
  · unfold doHubRequest
    by_cases h1 : is2xx resp1.statusCode = true
    · simp [h1]
    · simp only [Bool.not_eq_true] at h1
      by_cases h401 : resp1.statusCode = 401
      · have h4 : is2xx 401 = false := by decide
        by_cases h2 : is2xx resp2.statusCode = true <;> simp [h1, h401, h2, h4]
      · simp [h1, h401]

/-- Concrete instantiations of `doHubRequest_retry_policy`: a first 401
followed by a 200 makes exactly the two requests `["t", "tR"]` and
succeeds; a straight 200 makes one request; a 500 fails at once with the
typed error for status 500. -/
theorem doHubRequest_retry_policy_witness :
    (doHubRequest ⟨401, "unauth"⟩ ⟨200, "ok"⟩ "t" (fun t => t ++ "R")).2 = ["t", "tR"] ∧
    (doHubRequest ⟨200, "ok"⟩ ⟨0, ""⟩ "t" (fun t => t ++ "R")) = (Except.ok (), ["t"]) ∧
    (doHubRequest ⟨500, "boom"⟩ ⟨200, "ok"⟩ "t" (fun t => t ++ "R")) =
      (Except.error ⟨500, "boom"⟩, ["t"]) := by
  refine ⟨?_, ?_, ?_⟩
  · exact (doHubRequest_retry_policy ⟨401, "unauth"⟩ ⟨200, "ok"⟩ "t" (fun t => t ++ "R")).2.1
      rfl |>.1
  · exact (doHubRequest_retry_policy ⟨200, "ok"⟩ ⟨0, ""⟩ "t" (fun t => t ++ "R")).1 (by decide)
  · exact (doHubRequest_retry_policy ⟨500, "boom"⟩ ⟨200, "ok"⟩ "t"
      (fun t => t ++ "R")).2.2.1 (by decide) (by decide)

/-- C5: The signature gate classifies every inbound request: a POST with no
`X-Hub-Signature` header is rejected 400; a POST whose subscription record
cannot be resolved from path+query is rejected 404; a POST whose extracted
header digest differs from the computed HMAC digest is rejected 400; a POST
whose digest matches proceeds to lifecycle logic; every non-POST request
passes through unconditionally. -/
theorem verificationMiddleware_gate (hmac : String → String → String)
    (store : Store) (req : InboundRequest) :
    (req.method = "POST" → req.xHubSignature = none →
      (verificationMiddleware hmac store req).1 = MiddlewareOutcome.reject400) ∧
    (∀ h, req.method = "POST" → req.xHubSignature = some h →
      getWebhookById store (req.lastPathSegment ++ req.search) = none →
      (verificationMiddleware hmac store req).1 = MiddlewareOutcome.reject404) ∧
    (∀ h w, req.method = "POST" → req.xHubSignature = some h →
      getWebhookById store (req.lastPathSegment ++ req.search) = some w →
      jsSplitGet1 '=' h ≠ some (hmac w.secret req.body) →
      (verificationMiddleware hmac store req).1 = MiddlewareOutcome.reject400) ∧
    (∀ h w, req.method = "POST" → req.xHubSignature = some h →
      getWebhookById store (req.lastPathSegment ++ req.search) = some w →
      jsSplitGet1 '=' h = some (hmac w.secret req.body) →
      (verificationMiddleware hmac store req).1 = MiddlewareOutcome.proceed) ∧
    (req.method ≠ "POST" →
      (verificationMiddleware hmac store req).1 = MiddlewareOutcome.proceed) := by
  refine ⟨fun hm hn => ?_, fun h hm hh hw => ?_, fun h w hm hh hw hs => ?_,
    fun h w hm hh hw hs => ?_, fun hm => ?_⟩
  · simp [verificationMiddleware, hm, hn]
  · simp [verificationMiddleware, hm, hh, hw]
  · cases hsig : jsSplitGet1 '=' h with
    | none => simp [verificationMiddleware, hm, hh, hw, hsig]
    | some s =>
      have hne : ¬(hmac w.secret req.body = s) := fun he => hs (by rw [hsig, he])
      simp [verificationMiddleware, hm, hh, hw, hsig, hne]
  · simp [verificationMiddleware, hm, hh, hw, hs]
  · simp [verificationMiddleware, hm]

/-- Concrete runs of every branch of `verificationMiddleware_gate`: a POST
with no signature header is 400, an unknown record is 404, a mismatching
digest is 400, a matching digest proceeds, and a GET passes through. -/
theorem verificationMiddleware_gate_witness :
    (verificationMiddleware (fun s b => s ++ "|" ++ b)
      [⟨"cb?a=1", 0, "href", "sec", 300, false, none, none⟩]
      ⟨"POST", none, "cb", "?a=1", "body"⟩).1 = MiddlewareOutcome.reject400 ∧
    (verificationMiddleware (fun s b => s ++ "|" ++ b) ([] : Store)
      ⟨"POST", some "sha256=zz", "cb", "?a=1", "body"⟩).1 = MiddlewareOutcome.reject404 ∧
    (verificationMiddleware (fun s b => s ++ "|" ++ b)
      [⟨"cb?a=1", 0, "href", "sec", 300, false, none, none⟩]
      ⟨"POST", some "sha256=zz", "cb", "?a=1", "body"⟩).1 = MiddlewareOutcome.reject400 ∧
    (verificationMiddleware (fun s b => s ++ "|" ++ b)
      [⟨"cb?a=1", 0, "href", "sec", 300, false, none, none⟩]
      ⟨"POST", some "sha256=sec|body", "cb", "?a=1", "body"⟩).1 = MiddlewareOutcome.proceed ∧
    (verificationMiddleware (fun s b => s ++ "|" ++ b)
      [⟨"cb?a=1", 0, "href", "sec", 300, false, none, none⟩]
      ⟨"GET", none, "cb", "?a=1", ""⟩).1 = MiddlewareOutcome.proceed := by
  refine ⟨?_, ?_, ?_, ?_, ?_⟩
  · exact (verificationMiddleware_gate (fun s b => s ++ "|" ++ b)
      [⟨"cb?a=1", 0, "href", "sec", 300, false, none, none⟩]
      ⟨"POST", none, "cb", "?a=1", "body"⟩).1 rfl rfl
  · exact (verificationMiddleware_gate (fun s b => s ++ "|" ++ b) ([] : Store)
      ⟨"POST", some "sha256=zz", "cb", "?a=1", "body"⟩).2.1 "sha256=zz" rfl rfl rfl
  · exact (verificationMiddleware_gate (fun s b => s ++ "|" ++ b)
      [⟨"cb?a=1", 0, "href", "sec", 300, false, none, none⟩]
      ⟨"POST", some "sha256=zz", "cb", "?a=1", "body"⟩).2.2.1 "sha256=zz"
      ⟨"cb?a=1", 0, "href", "sec", 300, false, none, none⟩ rfl rfl (by decide) (by decide)
  · exact (verificationMiddleware_gate (fun s b => s ++ "|" ++ b)
      [⟨"cb?a=1", 0, "href", "sec", 300, false, none, none⟩]
      ⟨"POST", some "sha256=sec|body", "cb", "?a=1", "body"⟩).2.2.2.1 "sha256=sec|body"
      ⟨"cb?a=1", 0, "href", "sec", 300, false, none, none⟩ rfl rfl (by decide) (by decide)
  · exact (verificationMiddleware_gate (fun s b => s ++ "|" ++ b)
      [⟨"cb?a=1", 0, "href", "sec", 300, false, none, none⟩]
      ⟨"GET", none, "cb", "?a=1", ""⟩).2.2.2.2 (by decide)

/-- C10: The verifier never checks the algorithm tag before the first `'='`
of the `X-Hub-Signature` header: whenever the record resolves and the
portion after the first `'='` equals the HMAC hex digest of the raw body
under the record's secret (the digest containing no `'='`, as hex digests
do), the request proceeds — for every tag, not only `sha256`. -/
theorem verificationMiddleware_any_algorithm_tag
    (hmac : String → String → String) (store : Store) (req : InboundRequest)
    (pre : String) (w : WebhookPersistenceObject)
    (hm : req.method = "POST")
    (hw : getWebhookById store (req.lastPathSegment ++ req.search) = some w)
    (hh : req.xHubSignature = some (pre ++ "=" ++ hmac w.secret req.body))
    (hpre : '=' ∉ pre.data) (hd : '=' ∉ (hmac w.secret req.body).data) :
    (verificationMiddleware hmac store req).1 = MiddlewareOutcome.proceed := by
  have hs := jsSplitGet1_concat pre (hmac w.secret req.body) hpre hd
  simp [verificationMiddleware, hm, hh, hw, hs]

/-- A header tagged `md5=` (not `sha256=`) whose post-`'='` portion is the
correct digest is accepted, instantiating
`verificationMiddleware_any_algorithm_tag`. -/
theorem verificationMiddleware_any_algorithm_tag_witness :
    (verificationMiddleware (fun s b => s ++ b)
      [⟨"cb?a=1", 0, "href", "sec", 300, false, none, none⟩]
      ⟨"POST", some "md5=secbody", "cb", "?a=1", "body"⟩).1 = MiddlewareOutcome.proceed ∧
    ("md5" : String) ≠ "sha256" := by
  refine ⟨?_, by decide⟩
  exact verificationMiddleware_any_algorithm_tag (fun s b => s ++ b)
    [⟨"cb?a=1", 0, "href", "sec", 300, false, none, none⟩]
    ⟨"POST", some "md5=secbody", "cb", "?a=1", "body"⟩ "md5"
    ⟨"cb?a=1", 0, "href", "sec", 300, false, none, none⟩
    rfl (by decide) (by decide) (by decide) (by decide)

/-- C1 counterexample: the digest comparison is not constant-time.  Two
rejected POST callbacks through the very same verifier, with signatures
mismatching the digest `"abcd"` at byte 0 (`"xbcd"`) and at byte 3
(`"abcx"`), have comparison costs 1 and 4: the cost depends on where the
first mismatching byte occurs. -/
theorem verificationMiddleware_timing_counterexample :
    (verificationMiddleware (fun _ _ => "abcd")
      [⟨"cb?a=1", 0, "href", "sec", 300, false, none, none⟩]
      ⟨"POST", some "sha256=xbcd", "cb", "?a=1", "b"⟩).2 = 1 ∧
    (verificationMiddleware (fun _ _ => "abcd")
      [⟨"cb?a=1", 0, "href", "sec", 300, false, none, none⟩]
      ⟨"POST", some "sha256=abcx", "cb", "?a=1", "b"⟩).2 = 4 ∧
    (verificationMiddleware (fun _ _ => "abcd")
      [⟨"cb?a=1", 0, "href", "sec", 300, false, none, none⟩]
      ⟨"POST", some "sha256=xbcd", "cb", "?a=1", "b"⟩).1 = MiddlewareOutcome.reject400 ∧
    (verificationMiddleware (fun _ _ => "abcd")
      [⟨"cb?a=1", 0, "href", "sec", 300, false, none, none⟩]
      ⟨"POST", some "sha256=abcx", "cb", "?a=1", "b"⟩).1 = MiddlewareOutcome.reject400 := by
  decide

/-- C1 amended: when a POST resolves its record and the header yields a
signature string, the verifier compares the HMAC hex digest to it with
ordinary short-circuit string equality (`===`): it proceeds exactly when
they are equal, the comparison cost is `jsStrEqCost`, and for any two
distinct equal-length strings that cost is the index of the first
mismatching byte plus one — i.e. the comparison is not constant-time. -/
theorem verificationMiddleware_shortcircuit_compare
    (hmac : String → String → String) (store : Store) (req : InboundRequest)
    (h : String) (w : WebhookPersistenceObject) (sig : String)
    (hm : req.method = "POST") (hh : req.xHubSignature = some h)
    (hw : getWebhookById store (req.lastPathSegment ++ req.search) = some w)
    (hs : jsSplitGet1 '=' h = some sig) :
    ((verificationMiddleware hmac store req).1 = MiddlewareOutcome.proceed ↔
      hmac w.secret req.body = sig) ∧
    (verificationMiddleware hmac store req).2 =
      jsStrEqCost (hmac w.secret req.body) sig ∧
    (∀ a b : String, a.length = b.length → a ≠ b →
      jsStrEqCost a b = prefLen a.data b.data + 1) := by
  refine ⟨?_, ?_, fun a b hl hn => jsStrEqCost_of_ne a b hl hn⟩
  · by_cases he : hmac w.secret req.body = sig <;>
      simp [verificationMiddleware, hm, hh, hw, hs, he]
  · by_cases he : hmac w.secret req.body = sig <;>
      simp [verificationMiddleware, hm, hh, hw, hs, he]

/-- Concrete instantiation of `verificationMiddleware_shortcircuit_compare`:
acceptance is exactly digest equality and the cost is `jsStrEqCost` on a
concrete rejected request, and the cost formula evaluates at two concrete
unequal strings. -/
theorem verificationMiddleware_shortcircuit_compare_witness :
    ((verificationMiddleware (fun _ _ => "ab")
      [⟨"cb?a=1", 0, "href", "sec", 300, false, none, none⟩]
      ⟨"POST", some "sha256=xb", "cb", "?a=1", "b"⟩).1 = MiddlewareOutcome.proceed ↔
      ("ab" : String) = "xb") ∧
    (verificationMiddleware (fun _ _ => "ab")
      [⟨"cb?a=1", 0, "href", "sec", 300, false, none, none⟩]
      ⟨"POST", some "sha256=xb", "cb", "?a=1", "b"⟩).2 = jsStrEqCost "ab" "xb" ∧
    jsStrEqCost "ab" "xb" = prefLen "ab".data "xb".data + 1 := by
  have h := verificationMiddleware_shortcircuit_compare (fun _ _ => "ab")
    [⟨"cb?a=1", 0, "href", "sec", 300, false, none, none⟩]
    ⟨"POST", some "sha256=xb", "cb", "?a=1", "b"⟩ "sha256=xb"
    ⟨"cb?a=1", 0, "href", "sec", 300, false, none, none⟩ "xb"
    rfl rfl (by decide) (by decide)
  exact ⟨h.1, h.2.1, h.2.2 "ab" "xb" (by decide) (by decide)⟩

/-- C3: Subscribing twice with identical `(type, params)` returns the same
derived id both times and issues exactly one hub request and one
persistence insert in total: the first call (on a store without that id,
hub accepting) inserts once and issues one subscribe request; the second
call short-circuits on the existing record, returning its id with no
insert, no hub contact, and an unchanged store. -/
theorem subscribeOrGetSubscription_idempotent (store : Store) (type : Nat)
    (params : List (String × String)) (secret : String) (leaseSeconds : Nat)
    (resp1 resp2 resp3 resp4 : HubResponse) (token token2 : String)
    (refresh refresh2 : String → String)
    (hfresh : getWebhookById store
      (createWebhookPersistenceObject type params secret leaseSeconds).id = none)
    (hhub : is2xx resp1.statusCode = true) :
    (subscribeOrGetSubscription store type params secret leaseSeconds
        resp1 resp2 token refresh).result =
      Except.ok (createWebhookPersistenceObject type params secret leaseSeconds).id ∧
    (subscribeOrGetSubscription store type params secret leaseSeconds
        resp1 resp2 token refresh).hubModes = ["subscribe"] ∧
    (subscribeOrGetSubscription store type params secret leaseSeconds
        resp1 resp2 token refresh).inserts = 1 ∧
    (subscribeOrGetSubscription
        (subscribeOrGetSubscription store type params secret leaseSeconds
          resp1 resp2 token refresh).store
        type params secret leaseSeconds resp3 resp4 token2 refresh2).result =
      Except.ok (createWebhookPersistenceObject type params secret leaseSeconds).id ∧
    (subscribeOrGetSubscription
        (subscribeOrGetSubscription store type params secret leaseSeconds
          resp1 resp2 token refresh).store
        type params secret leaseSeconds resp3 resp4 token2 refresh2).hubModes = [] ∧
    (subscribeOrGetSubscription
        (subscribeOrGetSubscription store type params secret leaseSeconds
          resp1 resp2 token refresh).store
        type params secret leaseSeconds resp3 resp4 token2 refresh2).inserts = 0 ∧
    (subscribeOrGetSubscription
        (subscribeOrGetSubscription store type params secret leaseSeconds
          resp1 resp2 token refresh).store
        type params secret leaseSeconds resp3 resp4 token2 refresh2).store =
      (subscribeOrGetSubscription store type params secret leaseSeconds
        resp1 resp2 token refresh).store := by
  have hfirst : subscribeOrGetSubscription store type params secret leaseSeconds
      resp1 resp2 token refresh =
      ⟨Except.ok (createWebhookPersistenceObject type params secret leaseSeconds).id,
        persistWebhook store (createWebhookPersistenceObject type params secret leaseSeconds),
        ["subscribe"], 1⟩ := by
    rw [subscribeOrGetSubscription]
    simp [hfresh, doHubRequest, hhub]
  have hlook := getWebhookById_persist_self store
    (createWebhookPersistenceObject type params secret leaseSeconds)
  have hsecond : subscribeOrGetSubscription
      (persistWebhook store (createWebhookPersistenceObject type params secret leaseSeconds))
      type params secret leaseSeconds resp3 resp4 token2 refresh2 =
      ⟨Except.ok (createWebhookPersistenceObject type params secret leaseSeconds).id,
        persistWebhook store (createWebhookPersistenceObject type params secret leaseSeconds),
        [], 0⟩ := by
    rw [subscribeOrGetSubscription]
    simp [hlook]
  rw [hfirst]
  simp [hsecond]

/-- Instantiation of `subscribeOrGetSubscription_idempotent` on the empty
store: both calls return the derived id, the first issues the only hub
request and the only insert, the second issues none and leaves the store
as it was. -/
theorem subscribeOrGetSubscription_idempotent_witness :
    (subscribeOrGetSubscription [] 0 [("a", "1")] "sec" 300
        ⟨200, "ok"⟩ ⟨0, ""⟩ "t" (fun t => t)).result =
      Except.ok (createWebhookPersistenceObject 0 [("a", "1")] "sec" 300).id ∧
    (subscribeOrGetSubscription [] 0 [("a", "1")] "sec" 300
        ⟨200, "ok"⟩ ⟨0, ""⟩ "t" (fun t => t)).hubModes = ["subscribe"] ∧
    (subscribeOrGetSubscription [] 0 [("a", "1")] "sec" 300
        ⟨200, "ok"⟩ ⟨0, ""⟩ "t" (fun t => t)).inserts = 1 ∧
    (subscribeOrGetSubscription
        (subscribeOrGetSubscription [] 0 [("a", "1")] "sec" 300
          ⟨200, "ok"⟩ ⟨0, ""⟩ "t" (fun t => t)).store
        0 [("a", "1")] "sec" 300 ⟨777, "x"⟩ ⟨0, ""⟩ "t2" (fun t => t)).result =
      Except.ok (createWebhookPersistenceObject 0 [("a", "1")] "sec" 300).id ∧
    (subscribeOrGetSubscription
        (subscribeOrGetSubscription [] 0 [("a", "1")] "sec" 300
          ⟨200, "ok"⟩ ⟨0, ""⟩ "t" (fun t => t)).store
        0 [("a", "1")] "sec" 300 ⟨777, "x"⟩ ⟨0, ""⟩ "t2" (fun t => t)).hubModes = [] ∧
    (subscribeOrGetSubscription
        (subscribeOrGetSubscription [] 0 [("a", "1")] "sec" 300
          ⟨200, "ok"⟩ ⟨0, ""⟩ "t" (fun t => t)).store
        0 [("a", "1")] "sec" 300 ⟨777, "x"⟩ ⟨0, ""⟩ "t2" (fun t => t)).inserts = 0 := by
  have h := subscribeOrGetSubscription_idempotent [] 0 [("a", "1")] "sec" 300
    ⟨200, "ok"⟩ ⟨0, ""⟩ ⟨777, "x"⟩ ⟨0, ""⟩ "t" "t2" (fun t => t) (fun t => t)
    rfl (by decide)
  exact ⟨h.1, h.2.1, h.2.2.1, h.2.2.2.1, h.2.2.2.2.1, h.2.2.2.2.2.1⟩

/-- C4: On a verified confirmation callback (record found, mode neither
absent/denied nor `unsubscribe`) at clock reading `T`, the saved record has
`subscriptionStart = T` and `subscriptionEnd = T + L·1000` ms when the hub
echoes lease seconds `L`, else `T + leaseSeconds·1000` ms from the
originally requested lease. -/
theorem verifyGetHandler_lease (store : Store) (now : Nat) (webhookId : String)
    (mode : Option String) (leaseSecondsParam : Option Nat)
    (challenge reason : Option String) (sched : Bool)
    (w : WebhookPersistenceObject)
    (hw : getWebhookById store webhookId = some w)
    (hmode : modeAbsentOrDenied mode = false)
    (hunsub : mode ≠ some "unsubscribe") :
    ∃ w2, getWebhookById (verifyGetHandler store now webhookId mode
        leaseSecondsParam challenge reason sched).store webhookId = some w2 ∧
      w2.subscriptionStart = some now ∧
      (∀ l, leaseSecondsParam = some l → w2.subscriptionEnd = some (now + l * 1000)) ∧
      (leaseSecondsParam = none →
        w2.subscriptionEnd = some (now + w.leaseSeconds * 1000)) ∧
      w2.subscribed = true := by
  have hid : w.id = webhookId := getWebhookById_some_id hw
  refine ⟨{ w with
      subscriptionStart := some now
      subscriptionEnd := some (match leaseSecondsParam with
        | some l => now + l * 1000
        | none => now + w.leaseSeconds * 1000)
      subscribed := true }, ?_, rfl, ?_, ?_, rfl⟩
  · have hstore : (verifyGetHandler store now webhookId mode
        leaseSecondsParam challenge reason sched).store =
        saveWebhook store { w with
          subscriptionStart := some now
          subscriptionEnd := some (match leaseSecondsParam with
            | some l => now + l * 1000
            | none => now + w.leaseSeconds * 1000)
          subscribed := true } := by
      simp [verifyGetHandler, hw, hmode, hunsub]
    rw [hstore]
    exact getWebhookById_save_of_mem store webhookId w _ hw hid
  · intro l hl
    simp [hl]
  · intro hl
    simp [hl]

/-- Instantiations of `verifyGetHandler_lease`: with an echoed lease of 60
the saved record ends at `T + 60000`; with no echoed lease it ends at
`T + 300·1000` from the requested 300-second lease. -/
theorem verifyGetHandler_lease_witness :
    (∃ w2, getWebhookById (verifyGetHandler
        [⟨"0?a=1", 0, "href", "sec", 300, false, none, none⟩] 1000 "0?a=1"
        (some "subscribe") (some 60) (some "ch") none true).store "0?a=1" = some w2 ∧
      w2.subscriptionStart = some 1000 ∧
      (∀ l, (some 60 : Option Nat) = some l → w2.subscriptionEnd = some (1000 + l * 1000)) ∧
      ((some 60 : Option Nat) = none → w2.subscriptionEnd = some (1000 + 300 * 1000)) ∧
      w2.subscribed = true) ∧
    (∃ w2, getWebhookById (verifyGetHandler
        [⟨"0?a=1", 0, "href", "sec", 300, false, none, none⟩] 1000 "0?a=1"
        (some "subscribe") none (some "ch") none true).store "0?a=1" = some w2 ∧
      w2.subscriptionStart = some 1000 ∧
      (∀ l, (none : Option Nat) = some l → w2.subscriptionEnd = some (1000 + l * 1000)) ∧
      ((none : Option Nat) = none → w2.subscriptionEnd = some (1000 + 300 * 1000)) ∧
      w2.subscribed = true) := by
  constructor
  · exact verifyGetHandler_lease
      [⟨"0?a=1", 0, "href", "sec", 300, false, none, none⟩] 1000 "0?a=1"
      (some "subscribe") (some 60) (some "ch") none true
      ⟨"0?a=1", 0, "href", "sec", 300, false, none, none⟩
      (by decide) (by decide) (by decide)
  · exact verifyGetHandler_lease
      [⟨"0?a=1", 0, "href", "sec", 300, false, none, none⟩] 1000 "0?a=1"
      (some "subscribe") none (some "ch") none true
      ⟨"0?a=1", 0, "href", "sec", 300, false, none, none⟩
      (by decide) (by decide) (by decide)

/-- C6: A denial callback (mode absent or `denied`) for an existing record
deletes it from the store, emits exactly one `error` event referencing that
record and carrying the denial reason (the default text when `hub.reason`
is absent), and ends the response with no body. -/
theorem verifyGetHandler_denial (store : Store) (now : Nat) (webhookId : String)
    (mode : Option String) (leaseSecondsParam : Option Nat)
    (challenge reason : Option String) (sched : Bool)
    (w : WebhookPersistenceObject)
    (hw : getWebhookById store webhookId = some w)
    (hmode : modeAbsentOrDenied mode = true) :
    (verifyGetHandler store now webhookId mode leaseSecondsParam challenge
      reason sched).store = deleteWebhook store webhookId ∧
    getWebhookById (verifyGetHandler store now webhookId mode leaseSecondsParam
      challenge reason sched).store webhookId = none ∧
    (verifyGetHandler store now webhookId mode leaseSecondsParam challenge
      reason sched).events = [ManagerEvent.errorEvent w.id (denialReason reason)] ∧
    (verifyGetHandler store now webhookId mode leaseSecondsParam challenge
      reason sched).body = none ∧
    (reason = none → denialReason reason = "No reason given") := by
  refine ⟨?_, ?_, ?_, ?_, fun hr => by rw [hr]; rfl⟩ <;>
    simp [verifyGetHandler, hw, hmode, getWebhookById_delete_self]

/-- Instantiation of `verifyGetHandler_denial`: a `denied` callback with no
`hub.reason` deletes the record, emits the single default-reason error
event, and ends with no body. -/
theorem verifyGetHandler_denial_witness :
    (verifyGetHandler [⟨"0?a=1", 0, "href", "sec", 300, false, none, none⟩]
      1000 "0?a=1" (some "denied") none none none true).store =
      deleteWebhook [⟨"0?a=1", 0, "href", "sec", 300, false, none, none⟩] "0?a=1" ∧
    getWebhookById (verifyGetHandler
      [⟨"0?a=1", 0, "href", "sec", 300, false, none, none⟩]
      1000 "0?a=1" (some "denied") none none none true).store "0?a=1" = none ∧
    (verifyGetHandler [⟨"0?a=1", 0, "href", "sec", 300, false, none, none⟩]
      1000 "0?a=1" (some "denied") none none none true).events =
      [ManagerEvent.errorEvent "0?a=1" (denialReason none)] ∧
    (verifyGetHandler [⟨"0?a=1", 0, "href", "sec", 300, false, none, none⟩]
      1000 "0?a=1" (some "denied") none none none true).body = none ∧
    ((none : Option String) = none → denialReason none = "No reason given") := by
  exact verifyGetHandler_denial
    [⟨"0?a=1", 0, "href", "sec", 300, false, none, none⟩] 1000 "0?a=1"
    (some "denied") none none none true
    ⟨"0?a=1", 0, "href", "sec", 300, false, none, none⟩
    (by decide) (by decide)

/-- C7: A caller-initiated unsubscribe on an unknown id fails with the
not-found error and leaves the store unchanged; on a known id it issues one
hub request with mode `unsubscribe` and deregisters the id from the renewal
scheduler while the record remains in the store; the record is deleted only
by the hub's unsubscribe-confirmation GET callback, which removes it,
echoes the challenge, and emits `unsubscribed`. -/
theorem unsubscribe_deletes_only_on_confirmation (store : Store)
    (webhookId : String) (resp1 resp2 : HubResponse) (token : String)
    (refresh : String → String) (now : Nat) (leaseSecondsParam : Option Nat)
    (reason : Option String) (sched : Bool) :
    (getWebhookById store webhookId = none →
      unsubscribe store webhookId resp1 resp2 token refresh true =
        (Except.error (OpError.notFound webhookId), store, [], [])) ∧
    (∀ w, getWebhookById store webhookId = some w →
      is2xx resp1.statusCode = true →
      unsubscribe store webhookId resp1 resp2 token refresh true =
        (Except.ok (), store, ["unsubscribe"], [w.id])) ∧
    (∀ w c, getWebhookById store webhookId = some w →
      (verifyGetHandler store now webhookId (some "unsubscribe")
        leaseSecondsParam (some c) reason sched).store =
        deleteWebhook store w.id ∧
      getWebhookById (verifyGetHandler store now webhookId (some "unsubscribe")
        leaseSecondsParam (some c) reason sched).store webhookId = none ∧
      (verifyGetHandler store now webhookId (some "unsubscribe")
        leaseSecondsParam (some c) reason sched).body = some c ∧
      (verifyGetHandler store now webhookId (some "unsubscribe")
        leaseSecondsParam (some c) reason sched).events =
        [ManagerEvent.unsubscribedEvent w.id]) := by
  refine ⟨fun hn => ?_, fun w hw hh => ?_, fun w c hw => ?_⟩
  · simp [unsubscribe, hn]
  · simp [unsubscribe, hw, unsubscribePersistenceObject, doHubRequest, hh]
  · have hid : w.id = webhookId := getWebhookById_some_id hw
    have hmode : modeAbsentOrDenied (some "unsubscribe") = false := by decide
    refine ⟨?_, ?_, ?_, ?_⟩ <;>
      simp [verifyGetHandler, hw, hmode, hid, getWebhookById_delete_self]

/-- Instantiations of `unsubscribe_deletes_only_on_confirmation`: the
unknown id fails not-found with an unchanged store; the known id issues the
unsubscribe hub request and deregisters from the scheduler while the store
keeps the record; the confirmation GET deletes the record, echoes `"ch"`,
and emits `unsubscribed`. -/
theorem unsubscribe_deletes_only_on_confirmation_witness :
    unsubscribe [] "nope" ⟨200, "ok"⟩ ⟨0, ""⟩ "t" (fun t => t) true =
      (Except.error (OpError.notFound "nope"), [], [], []) ∧
    unsubscribe [⟨"0?a=1", 0, "href", "sec", 300, true, none, none⟩] "0?a=1"
      ⟨200, "ok"⟩ ⟨0, ""⟩ "t" (fun t => t) true =
      (Except.ok (), [⟨"0?a=1", 0, "href", "sec", 300, true, none, none⟩],
        ["unsubscribe"], ["0?a=1"]) ∧
    getWebhookById (verifyGetHandler
      [⟨"0?a=1", 0, "href", "sec", 300, true, none, none⟩] 1000 "0?a=1"
      (some "unsubscribe") none (some "ch") none true).store "0?a=1" = none ∧
    (verifyGetHandler [⟨"0?a=1", 0, "href", "sec", 300, true, none, none⟩]
      1000 "0?a=1" (some "unsubscribe") none (some "ch") none true).body = some "ch" ∧
    (verifyGetHandler [⟨"0?a=1", 0, "href", "sec", 300, true, none, none⟩]
      1000 "0?a=1" (some "unsubscribe") none (some "ch") none true).events =
      [ManagerEvent.unsubscribedEvent "0?a=1"] := by
  have h1 := (unsubscribe_deletes_only_on_confirmation [] "nope"
    ⟨200, "ok"⟩ ⟨0, ""⟩ "t" (fun t => t) 1000 none none true).1 rfl
  have h2 := (unsubscribe_deletes_only_on_confirmation
    [⟨"0?a=1", 0, "href", "sec", 300, true, none, none⟩] "0?a=1"
    ⟨200, "ok"⟩ ⟨0, ""⟩ "t" (fun t => t) 1000 none none true).2.1
    ⟨"0?a=1", 0, "href", "sec", 300, true, none, none⟩ (by decide) (by decide)
  have h3 := (unsubscribe_deletes_only_on_confirmation
    [⟨"0?a=1", 0, "href", "sec", 300, true, none, none⟩] "0?a=1"
    ⟨200, "ok"⟩ ⟨0, ""⟩ "t" (fun t => t) 1000 none none true).2.2
    ⟨"0?a=1", 0, "href", "sec", 300, true, none, none⟩ "ch" (by decide)
  exact ⟨h1, h2, h3.2.1, h3.2.2.1, h3.2.2.2⟩

/-- C8 (code defect at webhooks.ts:275): with the hub answering 500, the
inner `unsubscribePersistenceObject` rejects with the typed hub error, yet
`unsubscribe` — which does not `await` it — still resolves successfully, so
the caller never observes the error; `resubscribe` and the subscribe path,
which do await, propagate the same hub error to their callers. -/
theorem unsubscribe_drops_hub_error :
    (unsubscribe [⟨"0?a=1", 0, "href", "sec", 300, true, none, none⟩] "0?a=1"
      ⟨500, "boom"⟩ ⟨500, "boom"⟩ "t" (fun t => t) true).1 = Except.ok () ∧
    (unsubscribePersistenceObject ⟨"0?a=1", 0, "href", "sec", 300, true, none, none⟩
      ⟨500, "boom"⟩ ⟨500, "boom"⟩ "t" (fun t => t) true).1 =
      Except.error ⟨500, "boom"⟩ ∧
    (resubscribe [⟨"0?a=1", 0, "href", "sec", 300, true, none, none⟩] "0?a=1"
      ⟨500, "boom"⟩ ⟨500, "boom"⟩ "t" (fun t => t)).1 =
      Except.error (OpError.hub ⟨500, "boom"⟩) ∧
    (subscribeOrGetSubscription [] 0 [("a", "1")] "sec" 300
      ⟨500, "boom"⟩ ⟨500, "boom"⟩ "t" (fun t => t)).result =
      Except.error ⟨500, "boom"⟩ := by
  decide

/-- C9 (code defect at webhooks.ts:155–179): `unsubFromAll`'s completion
promise resolves only inside the `unsubscribed` event listener, so on the
empty store — where no unsubscribe is issued and hence no `unsubscribed`
event ever fires — it never resolves; resolution requires at least one
event even though the remaining-id list is already empty, while a nonempty
store whose every listed id receives its confirmation event does resolve. -/
theorem unsubFromAll_empty_store_never_resolves :
    unsubFromAllIds [] = [] ∧
    unsubFromAllResolved (unsubFromAllIds []) [] = false ∧
    unsubFromAllResolved [] ["stray"] = true ∧
    unsubFromAllResolved ["a", "b"] ["b", "a"] = true ∧
    unsubFromAllResolved ["a", "b"] ["b"] = false := by
  decide

end TwitchWebhooks
